import Mathlib

/-!
Verification of the RPC envelope codec, result extractor, domain mappers and
job poller of the NotebookLM consumer client
(src/notebooklm_consumer_mcp/api_client.py, src/notebooklm_consumer_mcp/server.py).

Python values flowing through the decoder are modelled by the inductive type
`Json`; the Python value `None` and the JSON value `null` are the same object
in Python, so both are modelled by `Json.null`.  Python `str` objects are
modelled by `String`, raw response text by `List Char`.  JSON numbers are
modelled by `Int`: the wire format under verification only carries integers,
and a float literal simply makes the modelled parse of that line fail (the
decoder then skips the line, which is the same defensive outcome the code
exhibits on any line it cannot use).
-/

/-- Model of a decoded Python/JSON value (`json.loads` output).
`null` doubles as the Python `None` object. -/
inductive Json where
  | null : Json
  | bool (b : Bool) : Json
  | num (n : Int) : Json
  | str (s : String) : Json
  | arr (xs : List Json) : Json
  | obj (fields : List (String × Json)) : Json
deriving Repr

/-- Python truthiness (`if value:`): `None`, `False`, `0`, the empty string,
the empty list and the empty dict are falsy, everything else truthy. -/
def pyTruthy : Json → Bool
  | .null => false
  | .bool b => b
  | .num n => n != 0
  | .str s => s ≠ ""
  | .arr xs => !xs.isEmpty
  | .obj fs => !fs.isEmpty

/-- Python `value == some_string`: only a `str` can compare equal to a `str`. -/
def pyEqStr (v : Json) (s : String) : Bool :=
  match v with
  | .str t => t = s
  | _ => false

/-- Python `value == some_int`: numbers compare by value and `bool` values
compare as 1 and 0 (Python `True == 1`); nothing else equals an int. -/
def pyEqInt (v : Json) (n : Int) : Bool :=
  match v with
  | .num m => m = n
  | .bool b => (if b then (1 : Int) else 0) = n
  | _ => false

/-- Python `value is not None`. -/
def pyIsNotNone : Json → Bool
  | .null => false
  | _ => true

/-! ### Model of `json.loads` and of `int(...)`

The decoder calls two library primitives: `int(line)` and `json.loads(text)`.
They are modelled executably below.  The `json.loads` model covers the subset
the wire format uses: `null`, `true`, `false`, integer literals, strings with
the single-character escapes, arrays and objects.  Unsupported forms (floats,
`\u` escapes) make the model return `none`, i.e. the line is skipped. -/

/-- ASCII whitespace stripped by Python `str.strip()`. -/
def isPyWs (c : Char) : Bool :=
  c = ' ' || c = '\t' || c = '\n' || c = '\r' || c = '\x0b' || c = '\x0c'

/-- Python `str.strip()` on a character list. -/
def pyStrip (cs : List Char) : List Char :=
  ((cs.dropWhile isPyWs).reverse.dropWhile isPyWs).reverse

/-- Drop leading whitespace (the inter-token skipping of the JSON parser). -/
def skipWs (cs : List Char) : List Char :=
  cs.dropWhile isPyWs

def isDigitCh (c : Char) : Bool :=
  '0' ≤ c && c ≤ '9'

/-- Split a character list into its maximal leading run of digits and the rest. -/
def takeDigits : List Char → List Char × List Char
  | [] => ([], [])
  | c :: cs =>
    if isDigitCh c then
      let p := takeDigits cs
      (c :: p.1, p.2)
    else ([], c :: cs)

def digitsToNat (ds : List Char) : Nat :=
  ds.foldl (fun acc c => 10 * acc + (c.toNat - '0'.toNat)) 0

/-- Model of Python `int(line)` on an already-stripped line: an optional sign
followed by at least one digit, nothing else. -/
def pyIntOpt (cs : List Char) : Option Int :=
  match cs with
  | '-' :: ds => if ds ≠ [] ∧ ds.all isDigitCh then some (-(digitsToNat ds : Int)) else none
  | '+' :: ds => if ds ≠ [] ∧ ds.all isDigitCh then some (digitsToNat ds : Int) else none
  | ds => if ds ≠ [] ∧ ds.all isDigitCh then some (digitsToNat ds : Int) else none

/-- One-character JSON string escapes (`\u` is not modelled: it fails). -/
def unescapeCh (c : Char) : Option Char :=
  if c = '"' then some '"'
  else if c = '\\' then some '\\'
  else if c = '/' then some '/'
  else if c = 'n' then some '\n'
  else if c = 't' then some '\t'
  else if c = 'r' then some '\r'
  else if c = 'b' then some '\x08'
  else if c = 'f' then some '\x0c'
  else none

/-- Parse the body of a JSON string literal (the opening quote already
consumed); returns the content and the rest after the closing quote. -/
def parseStrBody : List Char → Option (List Char × List Char)
  | [] => none
  | '"' :: rest => some ([], rest)
  | '\\' :: c :: rest =>
    match unescapeCh c with
    | some u =>
      match parseStrBody rest with
      | some (s, r) => some (u :: s, r)
      | none => none
    | none => none
  | '\\' :: [] => none
  | c :: rest =>
    if c.toNat < 32 then none
    else
      match parseStrBody rest with
      | some (s, r) => some (c :: s, r)
      | none => none

/-- Parse a JSON integer literal (leading zeros rejected as in JSON). -/
def parseNum (cs : List Char) : Option (Json × List Char) :=
  match cs with
  | '-' :: rest =>
    let p := takeDigits rest
    if p.1 = [] then none
    else if p.1.length > 1 ∧ p.1.headD '0' = '0' then none
    else some (.num (-(digitsToNat p.1 : Int)), p.2)
  | _ =>
    let p := takeDigits cs
    if p.1 = [] then none
    else if p.1.length > 1 ∧ p.1.headD '0' = '0' then none
    else some (.num (digitsToNat p.1 : Int), p.2)

mutual

/-- Fueled recursive-descent parser for one JSON value. -/
def parseValue : Nat → List Char → Option (Json × List Char)
  | 0, _ => none
  | fuel + 1, cs =>
    match skipWs cs with
    | 'n' :: 'u' :: 'l' :: 'l' :: rest => some (.null, rest)
    | 't' :: 'r' :: 'u' :: 'e' :: rest => some (.bool true, rest)
    | 'f' :: 'a' :: 'l' :: 's' :: 'e' :: rest => some (.bool false, rest)
    | '"' :: rest =>
      match parseStrBody rest with
      | some (s, r) => some (.str (String.mk s), r)
      | none => none
    | '[' :: rest =>
      match skipWs rest with
      | ']' :: r => some (.arr [], r)
      | other => parseArrElems fuel other []
    | '\x7b' :: rest =>
      match skipWs rest with
      | '\x7d' :: r => some (.obj [], r)
      | other => parseObjMembers fuel other []
    | other => parseNum other

/-- Elements of a JSON array after the opening bracket. -/
def parseArrElems : Nat → List Char → List Json → Option (Json × List Char)
  | 0, _, _ => none
  | fuel + 1, cs, acc =>
    match parseValue fuel cs with
    | none => none
    | some (v, r) =>
      match skipWs r with
      | ',' :: r2 => parseArrElems fuel r2 (acc ++ [v])
      | ']' :: r2 => some (.arr (acc ++ [v]), r2)
      | _ => none

/-- Members of a JSON object after the opening brace. -/
def parseObjMembers : Nat → List Char → List (String × Json) → Option (Json × List Char)
  | 0, _, _ => none
  | fuel + 1, cs, acc =>
    match skipWs cs with
    | '"' :: rest =>
      match parseStrBody rest with
      | none => none
      | some (k, r) =>
        match skipWs r with
        | ':' :: r2 =>
          match parseValue fuel r2 with
          | none => none
          | some (v, r3) =>
            match skipWs r3 with
            | ',' :: r4 => parseObjMembers fuel r4 (acc ++ [(String.mk k, v)])
            | '\x7d' :: r4 => some (.obj (acc ++ [(String.mk k, v)]), r4)
            | _ => none
        | _ => none
    | _ => none

end

/-- Model of `json.loads` on a character list: strip surrounding whitespace,
parse exactly one value, demand nothing but whitespace after it. -/
def parseJson (cs : List Char) : Option Json :=
  let body := pyStrip cs
  match parseValue (2 * body.length + 2) body with
  | some (v, rest) => if skipWs rest = [] then some v else none
  | none => none

/-- Model of `json.loads` on a `String` payload (the double-encoded inner documents). -/
def parseJsonStr (s : String) : Option Json :=
  parseJson s.toList

/-! ### `_parse_response` (api_client.py lines 338-382) -/

/-- The prefix strip: `if response_text.startswith(...): response_text = response_text[4:]`. -/
def stripXssi (s : List Char) : List Char :=
  match s with
  | ')' :: ']' :: '\x7d' :: '\x27' :: rest => rest
  | _ => s

/-- Python `text.split("\n")`. -/
def splitNl (cs : List Char) : List (List Char) :=
  match cs with
  | [] => [[]]
  | '\n' :: rest => [] :: splitNl rest
  | c :: rest =>
    match splitNl rest with
    | [] => [[c]]
    | l :: ls => (c :: l) :: ls

/-- The chunk loop of `_parse_response`: for each line, skip it when blank,
treat it as a byte count when `int(line)` succeeds (then the next raw line is
the payload, appended when it parses), otherwise append the stripped line when
it parses as JSON; a line that parses as neither is silently skipped. -/
def parse_chunks : List (List Char) → List Json
  | [] => []
  | l :: rest =>
    let line := pyStrip l
    if line = [] then parse_chunks rest
    else
      match pyIntOpt line with
      | some _ =>
        match rest with
        | [] => []
        | next :: rest2 =>
          match parseJson next with
          | some d => d :: parse_chunks rest2
          | none => parse_chunks rest2
      | none =>
        match parseJson line with
        | some d => d :: parse_chunks rest
        | none => parse_chunks rest

/-- Model of `_parse_response`: strip the anti-XSSI prefix when present, strip the
text, split it into lines and run the chunk loop. -/
def parse_response (s : List Char) : List Json :=
  parse_chunks (splitNl (pyStrip (stripXssi s)))

/-! ### `_extract_rpc_result` (api_client.py lines 384-399) -/

/-- The payload slot `item[2]`: when it is a string it is parsed a second time
(double-encoded wire format), falling back to the raw string when that second
parse fails; a non-string payload is returned as is. -/
def decodeResultStr (v : Json) : Json :=
  match v with
  | .str s =>
    match parseJsonStr s with
    | some j => j
    | none => .str s
  | _ => v

/-- Inner scan of one chunk: the first item that is a list of length at least
3 whose first element equals `"wrb.fr"` and second equals the operation id. -/
def extractInChunk : List Json → String → Option Json
  | [], _ => none
  | item :: rest, rpcId =>
    match item with
    | .arr (a :: b :: c :: _) =>
      if pyEqStr a "wrb.fr" && pyEqStr b rpcId then some (decodeResultStr c)
      else extractInChunk rest rpcId
    | _ => extractInChunk rest rpcId

/-- Model of `_extract_rpc_result`: scan chunks in arrival order and return the decoded
payload of the first matching triplet, or `None` when none matches. -/
def extract_rpc_result : List Json → String → Json
  | [], _ => .null
  | chunk :: rest, rpcId =>
    match chunk with
    | .arr items =>
      match extractInChunk items rpcId with
      | some v => v
      | none => extract_rpc_result rest rpcId
    | _ => extract_rpc_result rest rpcId

/-! ### `list_notebooks` response mapping (api_client.py lines 434-493) -/

/-- One mapped source inside a listed notebook (the dict built at line 478). -/
structure SourceEntry where
  id : Json
  title : Json
deriving Repr

/-- The `ConsumerNotebook` dataclass fields populated by `list_notebooks`. -/
structure ConsumerNotebook where
  id : Json
  title : String
  source_count : Nat
  sources : List SourceEntry
  is_owned : Bool
  is_shared : Bool
deriving Repr

/-- Source id slot: `src_ids = src[0] if src[0] else []` followed by
`src_id = src_ids[0] if isinstance(src_ids, list) and src_ids else src_ids`. -/
def listed_source_id (s0 : Json) : Json :=
  let src_ids := if pyTruthy s0 then s0 else .arr []
  match src_ids with
  | .arr (x :: _) => x
  | other => other

/-- A source entry is kept when it is a list of length at least 2. -/
def mapListedSource (src : Json) : Option SourceEntry :=
  match src with
  | .arr (s0 :: s1 :: _) => some ⟨listed_source_id s0, s1⟩
  | _ => none

/-- The `sources` accumulation: only when `sources_data` is a list. -/
def mapListedSources (sources_data : Json) : List SourceEntry :=
  match sources_data with
  | .arr srcs => srcs.filterMap mapListedSource
  | _ => []

/-- Ownership extraction (lines 452-465): defaults are owned and not shared;
when `nb_data[5]` is a nonempty list, `is_owned` is `metadata[0] == 1` and,
when `metadata[1]` exists, `is_shared` is `bool(metadata[1])`. -/
def ownership_flags (nbData : List Json) : Bool × Bool :=
  match nbData.get? 5 with
  | some (.arr (m0 :: mrest)) =>
    (pyEqInt m0 1,
      match mrest with
      | m1 :: _ => pyTruthy m1
      | [] => false)
  | _ => (true, false)

/-- Title slot: `title = nb_data[0] if isinstance(nb_data[0], str) else "Untitled"`. -/
def notebook_title (n0 : Json) : String :=
  match n0 with
  | .str s => s
  | _ => "Untitled"

/-- One notebook entry: kept when it is a list of length at least 3 and its
id slot (index 2) is truthy. -/
def mapNotebook (nb : Json) : Option ConsumerNotebook :=
  match nb with
  | .arr (n0 :: n1 :: n2 :: rest) =>
    let title := notebook_title n0
    let sources := mapListedSources n1
    let flags := ownership_flags (n0 :: n1 :: n2 :: rest)
    if pyTruthy n2 then
      some ⟨n2, title, sources.length, sources, flags.1, flags.2⟩
    else none
  | _ => none

/-- The result-to-notebooks mapping of `list_notebooks`: the outer wrapper is
unwrapped when `result[0]` is itself a list. -/
def list_notebooks_map (result : Json) : List ConsumerNotebook :=
  match result with
  | .arr [] => []
  | .arr (r0 :: rs) =>
    let notebook_list := match r0 with
      | .arr xs => xs
      | _ => r0 :: rs
    notebook_list.filterMap mapNotebook
  | _ => []

/-! ### `get_notebook_sources_with_types` (api_client.py lines 774-838) -/

/-- The per-source dict built by `get_notebook_sources_with_types`. -/
structure TypedSource where
  id : Json
  title : Json
  source_type : Json
  source_type_name : String
  drive_doc_id : Json
  can_sync : Bool
deriving Repr

/-- Model of `_get_source_type_name`: codes 1, 2 and 4, anything else is unknown. -/
def get_source_type_name (source_type : Json) : String :=
  if pyEqInt source_type 1 then "google_docs"
  else if pyEqInt source_type 2 then "google_slides_sheets"
  else if pyEqInt source_type 4 then "pasted_text"
  else "unknown"

/-- One typed source: kept when the entry is a list of length at least 3.
`source_type` comes from `metadata[4]` when present, the linked Drive document
id from `metadata[0][0]` when `metadata[0]` is a truthy list, and
`can_sync = drive_doc_id is not None and source_type in (1, 2)`. -/
def mapTypedSource (src : Json) : Option TypedSource :=
  match src with
  | .arr (s0 :: s1 :: s2 :: _) =>
    let source_id := match s0 with
      | .arr (x :: _) => x
      | _ => .null
    let source_type := match s2 with
      | .arr ms =>
        match ms.get? 4 with
        | some v => v
        | none => .null
      | _ => .null
    let drive_doc_id := match s2 with
      | .arr (m0 :: _) =>
        match m0 with
        | .arr (d :: _) => d
        | _ => .null
      | _ => .null
    let can_sync := pyIsNotNone drive_doc_id &&
      (pyEqInt source_type 1 || pyEqInt source_type 2)
    some ⟨source_id, s1, source_type, get_source_type_name source_type,
      drive_doc_id, can_sync⟩
  | _ => none

/-- The per-source loop, entered only when `sources_data` is a list. -/
def mapTypedSources (sources_data : Json) : List TypedSource :=
  match sources_data with
  | .arr srcs => srcs.filterMap mapTypedSource
  | _ => []

/-- The result-to-sources mapping of `get_notebook_sources_with_types`. -/
def get_notebook_sources_with_types (result : Json) : List TypedSource :=
  match result with
  | .arr [] => []
  | .arr (r0 :: rs) =>
    let notebook_data : List Json := match r0 with
      | .arr xs => xs
      | _ => r0 :: rs
    let sources_data : Json := match notebook_data.get? 1 with
      | some v => v
      | none => .arr []
    mapTypedSources sources_data
  | _ => []

/-! ### `add_drive_source` response mapping (api_client.py lines 977-984)

The mapping performs unguarded subscripting and, in its short-entry fallback
branch, references the name `document_name`, which is not defined anywhere in
`add_drive_source` (its parameter is called `title`).  The embedding therefore
returns `Except PyError Json`, with the Python exceptions the interpreter
would raise modelled explicitly. -/

inductive PyError where
  | nameError (name : String)
  | indexError
  | keyError
  | typeError
deriving Repr, DecidableEq

/-- Python subscripting `value[i]` for a non-negative literal index. -/
def pySubscript (v : Json) (i : Nat) : Except PyError Json :=
  match v with
  | .arr xs =>
    match xs.get? i with
    | some x => .ok x
    | none => .error .indexError
  | .str s =>
    match s.toList.get? i with
    | some c => .ok (.str (String.mk [c]))
    | none => .error .indexError
  | .obj _ => .error .keyError
  | _ => .error .typeError

/-- Python `len(value)`. -/
def pyLen (v : Json) : Except PyError Nat :=
  match v with
  | .arr xs => .ok xs.length
  | .str s => .ok s.length
  | .obj fs => .ok fs.length
  | _ => .error .typeError

/-- The extracted-result handling of `add_drive_source`: on success it returns
the dict with the new source id and title; a too-short source entry reaches
`else document_name`, an undefined name, i.e. a `NameError`. -/
def add_drive_source_map (result : Json) : Except PyError Json :=
  match result with
  | .arr (r0 :: _) =>
    let source_list := r0
    if pyTruthy source_list then
      match pyLen source_list with
      | .error e => .error e
      | .ok n =>
        if n > 0 then
          match pySubscript source_list 0 with
          | .error e => .error e
          | .ok source_data =>
            match pySubscript source_data 0 with
            | .error e => .error e
            | .ok sd0 =>
              match (if pyTruthy sd0 then pySubscript sd0 0 else .ok .null) with
              | .error e => .error e
              | .ok source_id =>
                match pyLen source_data with
                | .error e => .error e
                | .ok m =>
                  if m > 1 then
                    match pySubscript source_data 1 with
                    | .error e => .error e
                    | .ok source_title =>
                      .ok (.obj [("id", source_id), ("title", source_title)])
                  else .error (.nameError "document_name")
        else .ok .null
    else .ok .null
  | _ => .ok .null

/-! ### `research_status` polling loop (server.py lines 758-794)

`poll k` is the result of the k-th call to `client.poll_research`, modelled by
its truthiness and its `status` field; `elapsedAfter k` is the elapsed time
observed after the k-th poll.  The loop is given fuel (the real loop is bounded
by wall-clock time, which the model abstracts); the outcome records how many
polls were made and how many times `time.sleep` ran. -/

inductive PollRes where
  | falsy
  | truthy (status : Option String)

inductive RSKind where
  | pollError
  | finished (status : Option String)
  | stillWaiting (status : Option String)
deriving Repr, DecidableEq

structure RSOutcome where
  kind : RSKind
  polls : Nat
  sleeps : Nat
deriving Repr, DecidableEq

/-- The `while True` body: poll, return on falsy result, return on a terminal
status, return when `max_wait == 0 or elapsed >= max_wait`, otherwise sleep
and loop. -/
def research_status_loop (poll : Nat → PollRes) (elapsedAfter : Nat → Nat)
    (maxWait : Nat) : Nat → Nat → Nat → Option RSOutcome
  | 0, _, _ => none
  | fuel + 1, polls, sleeps =>
    let p := polls + 1
    match poll p with
    | .falsy => some ⟨.pollError, p, sleeps⟩
    | .truthy st =>
      if st = some "completed" ∨ st = some "no_research" then
        some ⟨.finished st, p, sleeps⟩
      else if maxWait = 0 ∨ maxWait ≤ elapsedAfter p then
        some ⟨.stillWaiting st, p, sleeps⟩
      else
        research_status_loop poll elapsedAfter maxWait fuel p (sleeps + 1)

/-- Model of `research_status`: the loop starts with zero polls and zero sleeps. -/
def research_status (poll : Nat → PollRes) (elapsedAfter : Nat → Nat)
    (maxWait fuel : Nat) : Option RSOutcome :=
  research_status_loop poll elapsedAfter maxWait fuel 0 0

/-! ### Validation in `configure_chat` (api_client.py lines 603-646) and
`start_research` (lines 1109-1141)

The transport call is abstracted by `transport`, and the first component of
the returned pair records every transport request issued, so an empty list
means the server was never contacted.  The response mapping after the
transport call is outside the validated claims and is returned raw. -/

structure PyRequest where
  rpcId : String
  params : Json

def RPC_RENAME_NOTEBOOK : String := "s0tc2d"
def RPC_START_FAST_RESEARCH : String := "Ljjv0c"
def RPC_START_DEEP_RESEARCH : String := "QA9ei"

def goal_map : List (String × Int) := [("default", 1), ("learning_guide", 3), ("custom", 2)]

def length_map : List (String × Int) := [("default", 1), ("longer", 4), ("shorter", 5)]

/-- Python truthiness of an optional string (`not custom_prompt`). -/
def optStrTruthy : Option String → Bool
  | none => false
  | some s => s ≠ ""

def promptLen (cp : Option String) : Nat :=
  (cp.getD "").length

/-- Python `str.lower()` on the ASCII range. -/
def pyLowerChar (c : Char) : Char :=
  if 'A' ≤ c ∧ c ≤ 'Z' then Char.ofNat (c.toNat + 32) else c

def pyLower (s : String) : String :=
  String.mk (s.toList.map pyLowerChar)

/-- Model of `configure_chat`: goal validation, custom-prompt validation, response
length validation, then one transport request carrying the settings params. -/
def configure_chat (transport : PyRequest → Json) (notebook_id goal : String)
    (custom_prompt : Option String) (response_length : String) :
    List PyRequest × Except String Json :=
  match goal_map.lookup goal with
  | none =>
    ([], .error ("Invalid goal: " ++ goal ++
      ". Must be one of: [\x27default\x27, \x27learning_guide\x27, \x27custom\x27]"))
  | some goal_code =>
    if goal = "custom" ∧ optStrTruthy custom_prompt = false then
      ([], .error "custom_prompt is required when goal=\x27custom\x27")
    else if goal = "custom" ∧ 10000 < promptLen custom_prompt then
      ([], .error ("custom_prompt exceeds 10000 chars (got " ++
        toString (promptLen custom_prompt) ++ ")"))
    else
      match length_map.lookup response_length with
      | none =>
        ([], .error ("Invalid response_length: " ++ response_length ++
          ". Must be one of: [\x27default\x27, \x27longer\x27, \x27shorter\x27]"))
      | some length_code =>
        let goal_setting : Json :=
          if goal = "custom" ∧ optStrTruthy custom_prompt then
            .arr [.num goal_code, .str (custom_prompt.getD "")]
          else .arr [.num goal_code]
        let chat_settings : Json := .arr [goal_setting, .arr [.num length_code]]
        let params : Json := .arr [.str notebook_id,
          .arr [.arr [.null, .null, .null, .null, .null, .null, .null, chat_settings]]]
        let req : PyRequest := ⟨RPC_RENAME_NOTEBOOK, params⟩
        ([req], .ok (transport req))

/-- Model of `start_research`: source and mode validation (including the unsupported
deep-plus-drive combination), then one transport request for the chosen RPC. -/
def start_research (transport : PyRequest → Json)
    (notebook_id query source mode : String) :
    List PyRequest × Except String Json :=
  let source_lower := pyLower source
  let mode_lower := pyLower mode
  if ¬(source_lower = "web" ∨ source_lower = "drive") then
    ([], .error ("Invalid source \x27" ++ source ++ "\x27. Use \x27web\x27 or \x27drive\x27."))
  else if ¬(mode_lower = "fast" ∨ mode_lower = "deep") then
    ([], .error ("Invalid mode \x27" ++ mode ++ "\x27. Use \x27fast\x27 or \x27deep\x27."))
  else if mode_lower = "deep" ∧ source_lower = "drive" then
    ([], .error "Deep Research only supports Web sources. Use mode=\x27fast\x27 for Drive.")
  else
    let source_type : Int := if source_lower = "web" then 1 else 2
    let pr : Json × String :=
      if mode_lower = "fast" then
        (.arr [.arr [.str query, .num source_type], .null, .num 1, .str notebook_id],
          RPC_START_FAST_RESEARCH)
      else
        (.arr [.null, .arr [.num 1], .arr [.str query, .num source_type], .num 5,
          .str notebook_id], RPC_START_DEEP_RESEARCH)
    let req : PyRequest := ⟨pr.2, pr.1⟩
    ([req], .ok (transport req))

/-! ### Predicates used to state the extractor claims -/

/-- An item is a matching triplet for `rpcId`: a list of length at least 3
whose first element is the string `"wrb.fr"` and whose second element is the
operation id. -/
def tripletMatches (rpcId : String) (item : Json) : Bool :=
  match item with
  | .arr (a :: b :: _ :: _) => pyEqStr a "wrb.fr" && pyEqStr b rpcId
  | _ => false

/-- A chunk contains a matching triplet for `rpcId`. -/
def chunkHasMatch (rpcId : String) (chunk : Json) : Bool :=
  match chunk with
  | .arr items => items.any (tripletMatches rpcId)
  | _ => false

theorem extractInChunk_eq_none (items : List Json) (rpcId : String)
    (h : ∀ i ∈ items, tripletMatches rpcId i = false) :
    extractInChunk items rpcId = none := by
  induction items with
  | nil => rfl
  | cons item rest ih =>
    have hhead := h item (List.mem_cons_self item rest)
    have htail : ∀ i ∈ rest, tripletMatches rpcId i = false :=
      fun i hi => h i (List.mem_cons_of_mem item hi)
    match item with
    | .null | .bool _ | .num _ | .str _ | .obj _ =>
      simpa [extractInChunk] using ih htail
    | .arr [] => simpa [extractInChunk] using ih htail
    | .arr [a] => simpa [extractInChunk] using ih htail
    | .arr [a, b] => simpa [extractInChunk] using ih htail
    | .arr (a :: b :: c :: t) =>
      simp only [tripletMatches] at hhead
      simpa [extractInChunk, hhead] using ih htail

theorem extract_rpc_result_cons_no_match (chunk : Json) (rest : List Json)
    (rpcId : String) (h : chunkHasMatch rpcId chunk = false) :
    extract_rpc_result (chunk :: rest) rpcId = extract_rpc_result rest rpcId := by
  match chunk with
  | .null | .bool _ | .num _ | .str _ | .obj _ => rfl
  | .arr items =>
    simp only [chunkHasMatch, List.any_eq_false] at h
    have : extractInChunk items rpcId = none :=
      extractInChunk_eq_none items rpcId (fun i hi => by
        have := h i hi
        simpa using this)
    simp [extract_rpc_result, this]

theorem extractInChunk_append_no_match (ipre rest : List Json) (rpcId : String)
    (h : ∀ i ∈ ipre, tripletMatches rpcId i = false) :
    extractInChunk (ipre ++ rest) rpcId = extractInChunk rest rpcId := by
  induction ipre with
  | nil => rfl
  | cons item tail ih =>
    have hhead := h item (List.mem_cons_self item tail)
    have htail : ∀ i ∈ tail, tripletMatches rpcId i = false :=
      fun i hi => h i (List.mem_cons_of_mem item hi)
    match item with
    | .null | .bool _ | .num _ | .str _ | .obj _ =>
      simpa [extractInChunk] using ih htail
    | .arr [] => simpa [extractInChunk] using ih htail
    | .arr [a] => simpa [extractInChunk] using ih htail
    | .arr [a, b] => simpa [extractInChunk] using ih htail
    | .arr (a :: b :: c :: t) =>
      simp only [tripletMatches] at hhead
      simpa [extractInChunk, hhead] using ih htail

/-- C3: decoding the documented concrete response
`)]\x7d\x27`, newline, `23`, newline,
`[["wrb.fr","OP123","\x7b\"a\":1\x7d",null]]`, newline, and extracting
operation id `OP123` yields the JSON object with field `a` mapped to 1: the
double-encoded inner string is parsed a second time. -/
theorem c3_decode_extract_scenario :
    extract_rpc_result
      (parse_response
        (")]\x7d\x27\n23\n[[\"wrb.fr\",\"OP123\",\"\x7b\\\"a\\\":1\x7d\",null]]\n".toList))
      "OP123" = .obj [("a", .num 1)] := by
  rfl

/-- C4: the `add_drive_source` response mapping does NOT fall back to a
declared title on a too-short source entry: an entry of length 1 reaches the
expression `else document_name`, and `document_name` is an undefined name in
`add_drive_source` (its parameter is called `title`), so the code raises
`NameError` instead of producing a fallback value. -/
theorem c4_add_drive_source_short_entry_name_error :
    add_drive_source_map (.arr [.arr [.arr [.arr [.str "src-1"]]]]) =
      .error (.nameError "document_name") := by
  rfl

/-- C2: when no chunk contains an inner list of length at least 3 whose first
element is `"wrb.fr"` and whose second element equals the operation id,
`_extract_rpc_result` returns `None`, whatever the shapes of the chunks. -/
theorem c2_extract_none_when_no_triplet :
    ∀ (chunks : List Json) (rpcId : String),
    (∀ c ∈ chunks, chunkHasMatch rpcId c = false) →
    extract_rpc_result chunks rpcId = .null := by
  intro chunks rpcId h
  induction chunks with
  | nil => rfl
  | cons chunk rest ih =>
    rw [extract_rpc_result_cons_no_match chunk rest rpcId
      (h chunk (List.mem_cons_self chunk rest))]
    exact ih (fun c hc => h c (List.mem_cons_of_mem chunk hc))

theorem c2_extract_none_when_no_triplet_witness :
    extract_rpc_result
      [Json.num 3,
       Json.arr [Json.arr [Json.str "wrb.fr", Json.str "OTHER", Json.null, Json.null]],
       Json.str "x"] "OP1" = .null :=
  c2_extract_none_when_no_triplet _ "OP1" (by decide)

/-- C10: `_extract_rpc_result` returns the decoded payload of the first
matching triplet in arrival order (outer chunk order, then inner item order)
and ignores everything after it. -/
theorem c10_first_match_wins :
    ∀ (pre post ipre irest tail : List Json) (payload : Json) (rpcId : String),
    (∀ c ∈ pre, chunkHasMatch rpcId c = false) →
    (∀ i ∈ ipre, tripletMatches rpcId i = false) →
    extract_rpc_result
      (pre ++
        Json.arr (ipre ++
          Json.arr (Json.str "wrb.fr" :: Json.str rpcId :: payload :: tail) :: irest) ::
        post)
      rpcId = decodeResultStr payload := by
  intro pre post ipre irest tail payload rpcId hpre hipre
  induction pre with
  | nil =>
    have hin : extractInChunk
        (ipre ++ Json.arr (Json.str "wrb.fr" :: Json.str rpcId :: payload :: tail) :: irest)
        rpcId = some (decodeResultStr payload) := by
      rw [extractInChunk_append_no_match ipre _ rpcId hipre]
      simp [extractInChunk, pyEqStr]
    simp [extract_rpc_result, hin]
  | cons chunk rest ih =>
    rw [List.cons_append, extract_rpc_result_cons_no_match chunk _ rpcId
      (hpre chunk (List.mem_cons_self chunk rest))]
    exact ih (fun c hc => hpre c (List.mem_cons_of_mem chunk hc))

/-! ### Lemmas for the decoder claim -/

theorem dropWhile_dropWhile_self (p : Char → Bool) (l : List Char) :
    (l.dropWhile p).dropWhile p = l.dropWhile p := by
  induction l with
  | nil => rfl
  | cons a t ih =>
    by_cases h : p a <;> simp [List.dropWhile_cons, h, ih]

theorem dropWhile_eq_self_of_front (p : Char → Bool) {A B : List Char}
    (hA : A.dropWhile p = A) (hBA : B <+: A) : B.dropWhile p = B := by
  match B with
  | [] => rfl
  | b :: s =>
    obtain ⟨t, ht⟩ := hBA
    have hb : p b = false := by
      by_contra hpb
      have hpb' : p b = true := by
        cases hp : p b with
        | true => rfl
        | false => exact absurd hp hpb
      have hA' : A.dropWhile p = ((b :: s) ++ t).dropWhile p := by rw [ht]
      rw [List.cons_append, List.dropWhile_cons, if_pos hpb'] at hA'
      have hlen : A.length ≤ (s ++ t).length :=
        hA ▸ hA' ▸ ((List.dropWhile_suffix p).sublist.length_le)
      rw [← ht] at hlen
      simp [List.length_append] at hlen
    simp [List.dropWhile_cons, hb]

theorem pyStrip_idem (cs : List Char) : pyStrip (pyStrip cs) = pyStrip cs := by
  unfold pyStrip
  set p := isPyWs with hp
  set A := cs.dropWhile p with hA
  have hAfix : A.dropWhile p = A := dropWhile_dropWhile_self p cs
  set B := (A.reverse.dropWhile p).reverse with hB
  have hBrev : B.reverse = A.reverse.dropWhile p := by
    rw [hB, List.reverse_reverse]
  have hBpre : B <+: A := by
    rw [← List.reverse_suffix, hBrev]
    exact List.dropWhile_suffix p
  have h1 : B.dropWhile p = B := dropWhile_eq_self_of_front p hAfix hBpre
  have h2 : B.reverse.dropWhile p = B.reverse := by
    rw [hBrev]
    exact dropWhile_dropWhile_self p A.reverse
  rw [h1, h2, List.reverse_reverse]

/-- The model of `json.loads` ignores the surrounding whitespace that
`str.strip` removes. -/
theorem parseJson_pyStrip (l : List Char) : parseJson (pyStrip l) = parseJson l := by
  simp only [parseJson, pyStrip_idem]

theorem parse_chunks_cons_blank (l : List Char) (rest : List (List Char))
    (hb : pyStrip l = []) : parse_chunks (l :: rest) = parse_chunks rest := by
  match rest with
  | [] => simp [parse_chunks, hb]
  | r :: rs => simp [parse_chunks, hb]

theorem parse_chunks_cons_count (l next : List Char) (rest : List (List Char))
    (k : Int) (hint : pyIntOpt (pyStrip l) = some k) :
    parse_chunks (l :: next :: rest) = (parseJson next).toList ++ parse_chunks rest := by
  have hb : pyStrip l ≠ [] := by
    intro h
    rw [h] at hint
    simp [pyIntOpt] at hint
  cases hpj : parseJson next with
  | none => simp [parse_chunks, hb, hint, hpj]
  | some v => simp [parse_chunks, hb, hint, hpj]

theorem parse_chunks_cons_count_nil (l : List Char) (k : Int)
    (hint : pyIntOpt (pyStrip l) = some k) : parse_chunks [l] = [] := by
  have hb : pyStrip l ≠ [] := by
    intro h
    rw [h] at hint
    simp [pyIntOpt] at hint
  simp [parse_chunks, hb, hint]

theorem parse_chunks_cons_json (l : List Char) (rest : List (List Char))
    (hb : pyStrip l ≠ []) (hint : pyIntOpt (pyStrip l) = none) :
    parse_chunks (l :: rest) = (parseJson (pyStrip l)).toList ++ parse_chunks rest := by
  cases hpj : parseJson (pyStrip l) with
  | none =>
    match rest with
    | [] => simp [parse_chunks, hb, hint, hpj]
    | r :: rs => simp [parse_chunks, hb, hint, hpj]
  | some v =>
    match rest with
    | [] => simp [parse_chunks, hb, hint, hpj]
    | r :: rs => simp [parse_chunks, hb, hint, hpj]

theorem parse_chunks_sublist (lines : List (List Char)) :
    List.Sublist (parse_chunks lines) (lines.filterMap parseJson) := by
  have H : ∀ n (ls : List (List Char)), ls.length ≤ n →
      List.Sublist (parse_chunks ls) (ls.filterMap parseJson) := by
    intro n
    induction n with
    | zero =>
      intro ls hls
      have : ls = [] := List.eq_nil_of_length_eq_zero (Nat.le_zero.mp hls)
      subst this
      simp [parse_chunks]
    | succ n ih =>
      intro ls hls
      match ls with
      | [] => simp [parse_chunks]
      | l :: rest =>
        by_cases hb : pyStrip l = []
        · rw [parse_chunks_cons_blank l rest hb]
          exact (ih rest (by simpa using Nat.le_of_succ_le_succ hls)).trans
            ((List.sublist_cons_self l rest).filterMap parseJson)
        · cases hint : pyIntOpt (pyStrip l) with
          | some k =>
            match rest with
            | [] =>
              rw [parse_chunks_cons_count_nil l k hint]
              exact List.nil_sublist _
            | next :: rest2 =>
              rw [parse_chunks_cons_count l next rest2 k hint]
              have h1 := (ih rest2 (by
                simp only [List.length_cons] at hls
                omega)).append_left (parseJson next).toList
              have h2 : (parseJson next).toList ++ rest2.filterMap parseJson =
                  (next :: rest2).filterMap parseJson := by
                cases hpj : parseJson next <;> simp [List.filterMap_cons, hpj]
              rw [h2] at h1
              exact h1.trans ((List.sublist_cons_self l _).filterMap parseJson)
          | none =>
            rw [parse_chunks_cons_json l rest hb hint, parseJson_pyStrip]
            have h1 := (ih rest (by simpa using Nat.le_of_succ_le_succ hls)).append_left
              (parseJson l).toList
            have h2 : (parseJson l).toList ++ rest.filterMap parseJson =
                (l :: rest).filterMap parseJson := by
              cases hpj : parseJson l <;> simp [List.filterMap_cons, hpj]
            rw [h2] at h1
            exact h1
  exact H lines.length lines (Nat.le_refl _)

/-- C1: `_parse_response` is a total function on raw text (it never raises):
it strips the anti-scraping prefix when present, accepts byte-count lines and
JSON lines interleaved (a byte-count line makes the following raw line the
payload; any other non-blank line is parsed directly), silently skips lines
that parse as neither, and its output lists the values of the lines that did
parse in arrival order (a sublist of the per-line parses). -/
theorem c1_parse_response_defensive :
    (∀ s : List Char,
      parse_response (')' :: ']' :: '\x7d' :: '\x27' :: s) =
        parse_chunks (splitNl (pyStrip s)))
    ∧ (∀ lines : List (List Char),
        List.Sublist (parse_chunks lines) (lines.filterMap parseJson))
    ∧ (∀ (l next : List Char) (rest : List (List Char)),
        pyStrip l ≠ [] → pyIntOpt (pyStrip l) ≠ none →
        parse_chunks (l :: next :: rest) = (parseJson next).toList ++ parse_chunks rest)
    ∧ (∀ (l : List Char) (rest : List (List Char)),
        pyStrip l ≠ [] → pyIntOpt (pyStrip l) = none →
        parse_chunks (l :: rest) = (parseJson (pyStrip l)).toList ++ parse_chunks rest) := by
  refine ⟨fun s => rfl, parse_chunks_sublist, ?_, ?_⟩
  · intro l next rest hb hint
    obtain ⟨k, hk⟩ := Option.ne_none_iff_exists.mp hint
    exact parse_chunks_cons_count l next rest k hk.symm
  · intro l rest hb hint
    exact parse_chunks_cons_json l rest hb hint

theorem c1_parse_response_defensive_witness :
    parse_response (')' :: ']' :: '\x7d' :: '\x27' :: "\n7\n[3]\nzzz\n[4]".toList) =
      parse_chunks (splitNl (pyStrip "\n7\n[3]\nzzz\n[4]".toList))
    ∧ parse_chunks (splitNl (pyStrip "\n7\n[3]\nzzz\n[4]".toList)) =
        [Json.arr [Json.num 3], Json.arr [Json.num 4]]
    ∧ parse_chunks ("7".toList :: "[3]".toList :: ["zzz".toList]) =
        (parseJson "[3]".toList).toList ++ parse_chunks ["zzz".toList]
    ∧ parse_chunks ("zzz".toList :: [" [4] ".toList]) =
        (parseJson (pyStrip "zzz".toList)).toList ++ parse_chunks [" [4] ".toList] :=
  ⟨c1_parse_response_defensive.1 _,
   by rfl,
   c1_parse_response_defensive.2.2.1 _ _ _ (by decide) (by decide),
   c1_parse_response_defensive.2.2.2 _ _ (by decide) (by decide)⟩

theorem c10_first_match_wins_witness :
    extract_rpc_result
      ([Json.num 7] ++
        Json.arr ([Json.null] ++
          Json.arr (Json.str "wrb.fr" :: Json.str "OP1" :: Json.str "1" :: [Json.null]) ::
          [Json.arr [Json.str "wrb.fr", Json.str "OP1", Json.str "2", Json.null]]) ::
        [Json.arr [Json.arr [Json.str "wrb.fr", Json.str "OP1", Json.str "3", Json.null]]])
      "OP1" = decodeResultStr (Json.str "1") :=
  c10_first_match_wins [Json.num 7] _ [Json.null] _ [Json.null] (Json.str "1") "OP1"
    (by decide) (by decide)

/-- C5: with `max_wait = 0` the research polling loop performs exactly one
poll and never sleeps, whatever the poll results and the clock behaviour
(terminal status, in-progress status, absent research, or a falsy result). -/
theorem c5_max_wait_zero_single_poll :
    ∀ (poll : Nat → PollRes) (elapsedAfter : Nat → Nat) (fuel : Nat),
    ∃ o : RSOutcome, research_status poll elapsedAfter 0 (fuel + 1) = some o ∧
      o.polls = 1 ∧ o.sleeps = 0 := by
  intro poll elapsedAfter fuel
  show ∃ o, research_status_loop poll elapsedAfter 0 (fuel + 1) 0 0 = some o ∧
    o.polls = 1 ∧ o.sleeps = 0
  cases hp : poll (0 + 1) with
  | falsy =>
    exact ⟨⟨.pollError, 0 + 1, 0⟩, by simp [research_status_loop, hp], rfl, rfl⟩
  | truthy st =>
    by_cases h : st = some "completed" ∨ st = some "no_research"
    · exact ⟨⟨.finished st, 0 + 1, 0⟩, by simp [research_status_loop, hp, h], rfl, rfl⟩
    · exact ⟨⟨.stillWaiting st, 0 + 1, 0⟩, by simp [research_status_loop, hp, h], rfl, rfl⟩

theorem mapTypedSource_can_sync (src : Json) (s : TypedSource)
    (h : mapTypedSource src = some s) (hc : s.can_sync = true) :
    pyIsNotNone s.drive_doc_id = true ∧
      (pyEqInt s.source_type 1 || pyEqInt s.source_type 2) = true := by
  match src with
  | .null | .bool _ | .num _ | .str _ | .obj _ => simp [mapTypedSource] at h
  | .arr [] => simp [mapTypedSource] at h
  | .arr [s0] => simp [mapTypedSource] at h
  | .arr [s0, s1] => simp [mapTypedSource] at h
  | .arr (s0 :: s1 :: s2 :: r) =>
    simp only [mapTypedSource, Option.some.injEq] at h
    subst h
    simp only [TypedSource.can_sync] at hc
    rw [Bool.and_eq_true] at hc
    exact ⟨hc.1, hc.2⟩

theorem mem_mapTypedSources (sd : Json) (s : TypedSource)
    (hmem : s ∈ mapTypedSources sd) : ∃ src, mapTypedSource src = some s := by
  match sd with
  | .null | .bool _ | .num _ | .str _ | .obj _ =>
    simp [mapTypedSources] at hmem
  | .arr srcs =>
    simp only [mapTypedSources] at hmem
    obtain ⟨src, _, hmap⟩ := List.mem_filterMap.mp hmem
    exact ⟨src, hmap⟩

/-- C6: every source record produced by `get_notebook_sources_with_types`
satisfies: if `can_sync` is true then `drive_doc_id` is not `None` and the
source type is one of the Drive-backed codes 1 (Google Docs) or
2 (Slides/Sheets). -/
theorem c6_can_sync_drive_backed :
    ∀ (result : Json) (s : TypedSource),
    s ∈ get_notebook_sources_with_types result →
    s.can_sync = true →
    pyIsNotNone s.drive_doc_id = true ∧
      (pyEqInt s.source_type 1 || pyEqInt s.source_type 2) = true := by
  intro result s hmem hc
  have hsrc : ∃ src, mapTypedSource src = some s := by
    match result with
    | .null | .bool _ | .num _ | .str _ | .obj _ =>
      simp [get_notebook_sources_with_types] at hmem
    | .arr [] => simp [get_notebook_sources_with_types] at hmem
    | .arr (r0 :: rs) =>
      simp only [get_notebook_sources_with_types] at hmem
      exact mem_mapTypedSources _ s hmem
  obtain ⟨src, hmap⟩ := hsrc
  exact mapTypedSource_can_sync src s hmap hc

theorem c6_can_sync_drive_backed_witness :
    (⟨Json.str "sid", Json.str "T", Json.num 1, "google_docs", Json.str "d1", true⟩ :
        TypedSource) ∈
      get_notebook_sources_with_types
        (Json.arr [Json.arr [Json.null,
          Json.arr [Json.arr [Json.arr [Json.str "sid"], Json.str "T",
            Json.arr [Json.arr [Json.str "d1"], Json.null, Json.null, Json.null,
              Json.num 1]]]]])
    ∧ pyIsNotNone (Json.str "d1") = true
    ∧ (pyEqInt (Json.num 1) 1 || pyEqInt (Json.num 1) 2) = true := by
  refine ⟨?_, ?_, ?_⟩
  · show _ ∈ [(⟨Json.str "sid", Json.str "T", Json.num 1, "google_docs",
      Json.str "d1", true⟩ : TypedSource)]
    exact List.mem_singleton.mpr rfl
  · exact (c6_can_sync_drive_backed
      (Json.arr [Json.arr [Json.null,
        Json.arr [Json.arr [Json.arr [Json.str "sid"], Json.str "T",
          Json.arr [Json.arr [Json.str "d1"], Json.null, Json.null, Json.null,
            Json.num 1]]]]])
      ⟨Json.str "sid", Json.str "T", Json.num 1, "google_docs", Json.str "d1", true⟩
      (by
        show _ ∈ [(⟨Json.str "sid", Json.str "T", Json.num 1, "google_docs",
          Json.str "d1", true⟩ : TypedSource)]
        exact List.mem_singleton.mpr rfl)
      rfl).1
  · exact rfl

theorem mapNotebook_count (nb : Json) (r : ConsumerNotebook)
    (h : mapNotebook nb = some r) : r.source_count = r.sources.length := by
  match nb with
  | .null | .bool _ | .num _ | .str _ | .obj _ => simp [mapNotebook] at h
  | .arr [] => simp [mapNotebook] at h
  | .arr [n0] => simp [mapNotebook] at h
  | .arr [n0, n1] => simp [mapNotebook] at h
  | .arr (n0 :: n1 :: n2 :: rest) =>
    simp only [mapNotebook] at h
    by_cases ht : pyTruthy n2 = true
    · rw [if_pos ht] at h
      rw [Option.some.injEq] at h
      subst h
      rfl
    · rw [if_neg ht] at h
      exact absurd h (by simp)

/-- C7: every `ConsumerNotebook` built by the `list_notebooks` mapping stores
`source_count` equal to the length of its mapped `sources` list. -/
theorem c7_source_count_matches :
    ∀ (result : Json) (nb : ConsumerNotebook),
    nb ∈ list_notebooks_map result →
    nb.source_count = nb.sources.length := by
  intro result nb hmem
  have : ∃ e, mapNotebook e = some nb := by
    match result with
    | .null | .bool _ | .num _ | .str _ | .obj _ =>
      simp [list_notebooks_map] at hmem
    | .arr [] => simp [list_notebooks_map] at hmem
    | .arr (r0 :: rs) =>
      simp only [list_notebooks_map] at hmem
      obtain ⟨e, _, hmap⟩ := List.mem_filterMap.mp hmem
      exact ⟨e, hmap⟩
  obtain ⟨e, hmap⟩ := this
  exact mapNotebook_count e nb hmap

theorem c7_source_count_matches_witness :
    (⟨Json.str "id1", "T", 1,
        [⟨Json.str "s1", Json.str "S1"⟩], true, false⟩ : ConsumerNotebook) ∈
      list_notebooks_map
        (Json.arr [Json.arr [Json.arr [Json.str "T",
          Json.arr [Json.arr [Json.arr [Json.str "s1"], Json.str "S1"]],
          Json.str "id1"]]])
    ∧ (1 : Nat) = [(⟨Json.str "s1", Json.str "S1"⟩ : SourceEntry)].length := by
  constructor
  · show _ ∈ [(⟨Json.str "id1", "T", 1,
      [⟨Json.str "s1", Json.str "S1"⟩], true, false⟩ : ConsumerNotebook)]
    exact List.mem_singleton.mpr rfl
  · exact c7_source_count_matches
      (Json.arr [Json.arr [Json.arr [Json.str "T",
        Json.arr [Json.arr [Json.arr [Json.str "s1"], Json.str "S1"]],
        Json.str "id1"]]])
      ⟨Json.str "id1", "T", 1, [⟨Json.str "s1", Json.str "S1"⟩], true, false⟩
      (by
        show _ ∈ [(⟨Json.str "id1", "T", 1,
          [⟨Json.str "s1", Json.str "S1"⟩], true, false⟩ : ConsumerNotebook)]
        exact List.mem_singleton.mpr rfl)

/-- C8: a catalog entry whose ownership metadata is the one-element list
`[2]` is mapped with `is_owned = False` and `is_shared = False` (the default
survives because index 1 of the metadata is absent); an entry whose
`metadata[0]` equals 1 is mapped as owned. -/
theorem c8_ownership_metadata :
    ∀ (t srcs e3 e4 idj : Json) (ms : List Json),
    pyTruthy idj = true →
    (list_notebooks_map
        (.arr [.arr [.arr [t, srcs, idj, e3, e4, .arr [.num 2]]]]) =
      [⟨idj, notebook_title t, (mapListedSources srcs).length,
        mapListedSources srcs, false, false⟩])
    ∧ (list_notebooks_map
        (.arr [.arr [.arr [t, srcs, idj, e3, e4, .arr (.num 1 :: ms)]]]) =
      [⟨idj, notebook_title t, (mapListedSources srcs).length,
        mapListedSources srcs, true,
        match ms with
        | m1 :: _ => pyTruthy m1
        | [] => false⟩]) := by
  intro t srcs e3 e4 idj ms h
  constructor
  · simp [list_notebooks_map, mapNotebook, ownership_flags, h, pyEqInt]
  · simp [list_notebooks_map, mapNotebook, ownership_flags, h, pyEqInt]

theorem c8_ownership_metadata_witness :
    (list_notebooks_map
        (.arr [.arr [.arr [.str "T", .arr [], .str "nb", .null, .null,
          .arr [.num 2]]]]) =
      [⟨.str "nb", notebook_title (.str "T"), (mapListedSources (.arr [])).length,
        mapListedSources (.arr []), false, false⟩])
    ∧ (list_notebooks_map
        (.arr [.arr [.arr [.str "T", .arr [], .str "nb", .null, .null,
          .arr [.num 1]]]]) =
      [⟨.str "nb", notebook_title (.str "T"), (mapListedSources (.arr [])).length,
        mapListedSources (.arr []), true, false⟩]) :=
  c8_ownership_metadata (.str "T") (.arr []) .null .null (.str "nb") [] (by rfl)

/-- C9: an unrecognized enum-string option (invalid `goal` or
`response_length` in `configure_chat`; invalid `source` or `mode`, or the
unsupported deep-plus-drive combination, in `start_research`) raises a
`ValueError` enumerating the accepted values before any transport request is
issued: the request trace of the rejected call is empty. -/
theorem c9_validation_before_transport :
    ∀ (transport : PyRequest → Json)
      (notebook_id goal response_length q source mode : String)
      (custom_prompt : Option String),
    (goal_map.lookup goal = none →
      configure_chat transport notebook_id goal custom_prompt response_length =
        ([], .error ("Invalid goal: " ++ goal ++
          ". Must be one of: [\x27default\x27, \x27learning_guide\x27, \x27custom\x27]")))
    ∧ (length_map.lookup response_length = none →
        (configure_chat transport notebook_id goal custom_prompt response_length).1 = []
        ∧ ∃ e, (configure_chat transport notebook_id goal custom_prompt
            response_length).2 = .error e)
    ∧ (goal_map.lookup goal ≠ none →
        (goal = "custom" → optStrTruthy custom_prompt = true ∧
          promptLen custom_prompt ≤ 10000) →
        length_map.lookup response_length = none →
        configure_chat transport notebook_id goal custom_prompt response_length =
          ([], .error ("Invalid response_length: " ++ response_length ++
            ". Must be one of: [\x27default\x27, \x27longer\x27, \x27shorter\x27]")))
    ∧ (¬(pyLower source = "web" ∨ pyLower source = "drive") →
        start_research transport notebook_id q source mode =
          ([], .error ("Invalid source \x27" ++ source ++
            "\x27. Use \x27web\x27 or \x27drive\x27.")))
    ∧ ((pyLower source = "web" ∨ pyLower source = "drive") →
        ¬(pyLower mode = "fast" ∨ pyLower mode = "deep") →
        start_research transport notebook_id q source mode =
          ([], .error ("Invalid mode \x27" ++ mode ++
            "\x27. Use \x27fast\x27 or \x27deep\x27.")))
    ∧ (pyLower source = "drive" → pyLower mode = "deep" →
        start_research transport notebook_id q source mode =
          ([], .error
            "Deep Research only supports Web sources. Use mode=\x27fast\x27 for Drive.")) := by
  intro transport notebook_id goal response_length q source mode custom_prompt
  refine ⟨?_, ?_, ?_, ?_, ?_, ?_⟩
  · intro hg
    simp [configure_chat, hg]
  · intro hl
    cases hg : goal_map.lookup goal with
    | none => simp [configure_chat, hg]
    | some gc =>
      by_cases h1 : goal = "custom" ∧ optStrTruthy custom_prompt = false
      · obtain ⟨hc, hf⟩ := h1
        subst hc
        simp [configure_chat, hg, hf]
      · by_cases h2 : goal = "custom" ∧ 10000 < promptLen custom_prompt
        · obtain ⟨hc, hgt⟩ := h2
          subst hc
          have hft : optStrTruthy custom_prompt = true := by
            cases hcp : optStrTruthy custom_prompt with
            | false => exact absurd ⟨rfl, hcp⟩ h1
            | true => rfl
          simp [configure_chat, hg, hft, hgt]
        · simp [configure_chat, hg, h1, h2, hl]
  · intro hg hcustom hl
    obtain ⟨gc, hgc⟩ := Option.ne_none_iff_exists.mp hg
    have h1 : ¬(goal = "custom" ∧ optStrTruthy custom_prompt = false) := by
      rintro ⟨hc, hf⟩
      rw [(hcustom hc).1] at hf
      exact Bool.noConfusion hf
    have h2 : ¬(goal = "custom" ∧ 10000 < promptLen custom_prompt) := by
      rintro ⟨hc, hgt⟩
      exact absurd (hcustom hc).2 (Nat.not_le.mpr hgt)
    simp [configure_chat, hgc.symm, h1, h2, hl]
  · intro hs
    simp [start_research, hs]
  · intro hs hm
    simp [start_research, hs, hm]
  · intro hs hm
    have h1 : pyLower source = "web" ∨ pyLower source = "drive" := Or.inr hs
    have h2 : pyLower mode = "fast" ∨ pyLower mode = "deep" := Or.inr hm
    simp [start_research, h1, h2, hs, hm]

theorem c9_validation_before_transport_witness :
    (configure_chat (fun _ => Json.null) "nb" "bogus" none "default" =
      ([], .error ("Invalid goal: " ++ "bogus" ++
        ". Must be one of: [\x27default\x27, \x27learning_guide\x27, \x27custom\x27]")))
    ∧ (configure_chat (fun _ => Json.null) "nb" "default" none "huge" =
      ([], .error ("Invalid response_length: " ++ "huge" ++
        ". Must be one of: [\x27default\x27, \x27longer\x27, \x27shorter\x27]")))
    ∧ (start_research (fun _ => Json.null) "nb" "q" "intranet" "fast" =
      ([], .error ("Invalid source \x27" ++ "intranet" ++
        "\x27. Use \x27web\x27 or \x27drive\x27.")))
    ∧ (start_research (fun _ => Json.null) "nb" "q" "web" "turbo" =
      ([], .error ("Invalid mode \x27" ++ "turbo" ++
        "\x27. Use \x27fast\x27 or \x27deep\x27.")))
    ∧ (start_research (fun _ => Json.null) "nb" "q" "drive" "deep" =
      ([], .error
        "Deep Research only supports Web sources. Use mode=\x27fast\x27 for Drive.")) :=
  ⟨(c9_validation_before_transport (fun _ => Json.null) "nb" "bogus" "default"
      "q" "web" "fast" none).1 (by decide),
   (c9_validation_before_transport (fun _ => Json.null) "nb" "default" "huge"
      "q" "web" "fast" none).2.2.1 (by decide)
      (fun h => absurd h (by decide)) (by decide),
   (c9_validation_before_transport (fun _ => Json.null) "nb" "default" "default"
      "q" "intranet" "fast" none).2.2.2.1 (by decide),
   (c9_validation_before_transport (fun _ => Json.null) "nb" "default" "default"
      "q" "web" "turbo" none).2.2.2.2.1 (by decide) (by decide),
   (c9_validation_before_transport (fun _ => Json.null) "nb" "default" "default"
      "q" "drive" "deep" none).2.2.2.2.2 (by decide) (by decide)⟩
